import Mathlib

/-!
Shallow embedding of the travel360.UI client (a TypeScript/React airline
booking front end) and verification of its specification claims.

Conventions used throughout:
* JavaScript strings that are tested for truthiness are modelled as
  `Option String`, where `none` stands for `null`/`undefined`; the empty
  string is a present value that is falsy.
* JavaScript numbers appearing in the verified logic are integers in the
  source (prices, capacities, epoch milliseconds), modelled as `Int`/`Nat`.
* `Date.getTime()` values and the time-of-day extracted by
  `toTimeString().slice(0, 5)` are modelled as two abstract integer fields
  of a flight; the platform's date parsing itself is not part of this
  repository.
* `Array.prototype.sort` with a numeric comparator is modelled as
  `List.mergeSort` on `le a b := cmp a b ≤ 0`, a stable sort agreeing with
  the ECMAScript specification for consistent comparators.
-/

namespace Travel360

/-- JS truthiness of a nullable string (`null`/`undefined`/`""` are falsy). -/
def jsTruthyStr : Option String → Bool
  | none => false
  | some s => s ≠ ""

/-- Seat classes, from the `SeatClass` enum in the types module. -/
inductive SeatClass where
  | FIRST
  | BUSINESS
  | ECONOMY
deriving DecidableEq, Repr

/-- Flight status, from the `FlightStatus` enum in the types module. -/
inductive FlightStatus where
  | SCHEDULED
  | BOARDING
  | DEPARTED
  | IN_FLIGHT
  | ARRIVED
  | CANCELLED
  | DELAYED
deriving DecidableEq, Repr

/-- The airplane fields read by the booking page's seat-map logic
(`flight.airplane.firstClassCapacity` etc.). -/
structure Airplane where
  firstClassCapacity : Nat
  businessClassCapacity : Nat
  economyClassCapacity : Nat
deriving DecidableEq, Repr

/-- The `Flight` record, restricted to the fields the verified client logic
reads.  `departureEpochMs`/`arrivalEpochMs` model `new Date(t).getTime()` and
`departureTimeOfDay` models the value obtained from
`new Date(flight.departureTime).toTimeString().slice(0, 5)` re-parsed on the
fixed date 2000-01-01. -/
structure Flight where
  id : String
  airplane : Airplane
  departureEpochMs : Int
  arrivalEpochMs : Int
  departureTimeOfDay : Int
  status : FlightStatus
  firstClassPrice : Int
  businessClassPrice : Int
  economyClassPrice : Int
  availableFirstClassSeats : Int
  availableBusinessClassSeats : Int
  availableEconomyClassSeats : Int
deriving DecidableEq, Repr

/-- A server-computed transit itinerary (`TransitFlightOption`). -/
structure TransitFlightOption where
  id : String
  totalDuration : Int
  totalPrice : Int
  flights : List Flight
deriving DecidableEq, Repr

/-- `FlightSearchResult` as returned by the search endpoint. -/
structure FlightSearchResult where
  directFlights : List Flight
  transitFlights : List TransitFlightOption
deriving DecidableEq, Repr

/-- The three sort modes of the search page's filter state. -/
inductive SortBy where
  | price
  | duration
  | departure
deriving DecidableEq, Repr

/-- The filter state of `FlightSearchPage`.  `departureTimeRange.start/end`
are `Option Int`: `none` models the empty (falsy) string, `some t` a
non-empty `HH:MM` string parsed to the time value `t` on 2000-01-01.
The `airlines` entry of the source state is never read by
`getFilteredResults` and is omitted. -/
structure Filters where
  maxPrice : Int
  seatClass : Option SeatClass
  timeStart : Option Int
  timeEnd : Option Int
  maxStops : Int
  sortBy : SortBy
deriving DecidableEq, Repr

/-- The seat-class price selection used by both the price filter and the
price comparator in `FlightSearchPage`:
`filters.seatClass === FIRST ? firstClassPrice :
 filters.seatClass === BUSINESS ? businessClassPrice : economyClassPrice`. -/
def priceInClass (sc : Option SeatClass) (f : Flight) : Int :=
  match sc with
  | some SeatClass.FIRST => f.firstClassPrice
  | some SeatClass.BUSINESS => f.businessClassPrice
  | _ => f.economyClassPrice

/-- The seat-class availability selection of the seat-class filter in
`FlightSearchPage`. -/
def availableSeatsInClass (sc : SeatClass) (f : Flight) : Int :=
  match sc with
  | SeatClass.FIRST => f.availableFirstClassSeats
  | SeatClass.BUSINESS => f.availableBusinessClassSeats
  | SeatClass.ECONOMY => f.availableEconomyClassSeats

/-- The `sortFunctions` record of `getFilteredResults`: each comparator
returns the difference of the two flights' sort keys. -/
def sortCmp (filters : Filters) (a b : Flight) : Int :=
  match filters.sortBy with
  | SortBy.price => priceInClass filters.seatClass a - priceInClass filters.seatClass b
  | SortBy.departure => a.departureEpochMs - b.departureEpochMs
  | SortBy.duration =>
      (a.arrivalEpochMs - a.departureEpochMs) - (b.arrivalEpochMs - b.departureEpochMs)

/-- `getFilteredResults` from `FlightSearchPage.tsx`: price filter (only when
`maxPrice > 0`), seat-class availability filter (only when a class is
selected), departure-time window filter (only when both bounds are set),
then a comparator sort of the direct flights and the unconditional
`flights.length - 1 <= maxStops` filter on transit options. -/
def getFilteredResults (filters : Filters) (searchResults : Option FlightSearchResult) :
    Option FlightSearchResult :=
  match searchResults with
  | none => none
  | some res =>
    let directFlights1 :=
      if filters.maxPrice > 0 then
        res.directFlights.filter (fun f =>
          decide (priceInClass filters.seatClass f ≤ filters.maxPrice))
      else res.directFlights
    let transitFlights1 :=
      if filters.maxPrice > 0 then
        res.transitFlights.filter (fun o => decide (o.totalPrice ≤ filters.maxPrice))
      else res.transitFlights
    let directFlights2 : List Flight :=
      match filters.seatClass with
      | some sc => directFlights1.filter (fun f => decide (availableSeatsInClass sc f > 0))
      | none => directFlights1
    let directFlights3 : List Flight :=
      match filters.timeStart, filters.timeEnd with
      | some s, some e =>
          directFlights2.filter (fun f =>
            decide (s ≤ f.departureTimeOfDay) && decide (f.departureTimeOfDay ≤ e))
      | _, _ => directFlights2
    let sorted := directFlights3.mergeSort (fun a b => decide (sortCmp filters a b ≤ 0))
    some { directFlights := sorted,
           transitFlights :=
             transitFlights1.filter (fun o =>
               decide ((o.flights.length : Int) - 1 ≤ filters.maxStops)) }

/-! ### BookingPage: seat-map derivation, flight list, availability gate -/

/-- The capacity selection of `loadAvailableSeats` in the booking dialog:
`seatClass === FIRST ? airplane.firstClassCapacity :
 seatClass === BUSINESS ? airplane.businessClassCapacity :
 airplane.economyClassCapacity`. -/
def capacityInClass (sc : SeatClass) (a : Airplane) : Nat :=
  match sc with
  | SeatClass.FIRST => a.firstClassCapacity
  | SeatClass.BUSINESS => a.businessClassCapacity
  | SeatClass.ECONOMY => a.economyClassCapacity

/-- The seat-letter selection of `loadAvailableSeats`:
`seatClass === FIRST ? 'F' : seatClass === BUSINESS ? 'B' : 'E'`. -/
def seatLetter (sc : SeatClass) : String :=
  match sc with
  | SeatClass.FIRST => "F"
  | SeatClass.BUSINESS => "B"
  | SeatClass.ECONOMY => "E"

/-- The seat-map derivation of `loadAvailableSeats`: given the flight's
airplane, the seat class and the booked-seat list returned by the server,
produce the pair `(allSeats, availableSeats)` computed by
`Array.from({length: capacity}, (_, i) => seatLetter + (i + 1))` followed by
`allSeats.filter(seat => !bookedSeats.includes(seat))`. -/
def loadAvailableSeats (airplane : Airplane) (sc : SeatClass) (bookedSeats : List String) :
    List String × List String :=
  let allSeats := (List.range (capacityInClass sc airplane)).map
    (fun i => seatLetter sc ++ toString (i + 1))
  (allSeats, allSeats.filter (fun seat => !(bookedSeats.contains seat)))

/-- The flight filter of `loadFlights` in the booking dialog: only future
flights whose status is `SCHEDULED` are offered for booking. -/
def bookableFlights (now : Int) (flights : List Flight) : List Flight :=
  flights.filter (fun f =>
    decide (f.departureEpochMs > now) && decide (f.status = FlightStatus.SCHEDULED))

/-- `isAvailable` on `BookingPage`: `availableSeats >= passengers`. -/
def isAvailable (availableSeats passengers : Int) : Bool :=
  decide (availableSeats ≥ passengers)

/-- The `disabled` condition of the booking button on `BookingPage`:
`!isAvailable || isBooking`. -/
def bookButtonDisabled (availableSeats passengers : Int) (isBooking : Bool) : Bool :=
  !(isAvailable availableSeats passengers) || isBooking

/-! ### AirplaneManagementPage: the zod `airplaneSchema` -/

/-- The fields of the airplane creation form that the zod schema checks
beyond their static types. -/
structure AirplaneFormData where
  model : String
  registrationNumber : String
  firstClassCapacity : Int
  businessClassCapacity : Int
  economyClassCapacity : Int
deriving DecidableEq, Repr

/-- Client-side validation from `airplaneSchema` in the airplane management
page: `model` and `registrationNumber` are non-empty strings, the first and
business class capacities are at least 0 and the economy class capacity is
at least 1 (`size` and `active` are checked only at the type level). -/
def airplaneSchemaCheck (d : AirplaneFormData) : Bool :=
  decide (d.model.length ≥ 1) && decide (d.registrationNumber.length ≥ 1) &&
    decide (d.firstClassCapacity ≥ 0) && decide (d.businessClassCapacity ≥ 0) &&
    decide (d.economyClassCapacity ≥ 1)

/-! ### The API client (`ApiService`) -/

/-- The request configuration fields touched by the request interceptor. -/
structure RequestConfig where
  authorization : Option String
deriving DecidableEq, Repr

/-- The request interceptor of `setupInterceptors`:
`const token = localStorage.getItem('auth_token');
 if (token) { config.headers.Authorization = 'Bearer ' + token; }`.
`storedToken` is the content of the `auth_token` localStorage key
(`none` when absent). -/
def requestInterceptor (storedToken : Option String) (config : RequestConfig) :
    RequestConfig :=
  match storedToken with
  | some t => if t = "" then config else { config with authorization := some ("Bearer " ++ t) }
  | none => config

/-- The observable inputs of the response error interceptor. -/
structure ResponseErrorInput where
  status : Option Nat
  retryFlag : Bool
deriving DecidableEq, Repr

/-- The observable effects of one run of the response error interceptor. -/
structure ResponseErrorEffect where
  retryMarked : Bool
  tokenRemoved : Bool
  redirectScheduled : Bool
  requestReissued : Bool
  rejected : Bool
deriving DecidableEq, Repr

/-- The response error interceptor of `setupInterceptors`: on a 401 response
whose request is not yet marked `_retry`, mark it; when additionally the
current path is neither `/login` nor `/register`, remove the stored token
and schedule a redirect to `/login`.  In every case the error is rejected
and the request is never reissued. -/
def responseErrorInterceptor (err : ResponseErrorInput) (currentPath : String) :
    ResponseErrorEffect :=
  if err.status = some 401 ∧ err.retryFlag = false then
    if currentPath ≠ "/login" ∧ currentPath ≠ "/register" then
      { retryMarked := true, tokenRemoved := true, redirectScheduled := true,
        requestReissued := false, rejected := true }
    else
      { retryMarked := true, tokenRemoved := false, redirectScheduled := false,
        requestReissued := false, rejected := true }
  else
    { retryMarked := false, tokenRemoved := false, redirectScheduled := false,
      requestReissued := false, rejected := true }

/-- The body fields of an error response that `handleError` reads; the JS
values are arbitrary, the `message`/`error` fields are modelled as nullable
strings with JS truthiness. -/
structure ErrorResponseData where
  message : Option String
  error : Option String
deriving DecidableEq, Repr

/-- `error.response` when the server responded with an error status. -/
structure ErrorResponse where
  status : Nat
  data : ErrorResponseData
deriving DecidableEq, Repr

/-- The axios error object as observed by `handleError`. -/
structure AxiosError where
  response : Option ErrorResponse
  requestSent : Bool
  message : Option String
deriving DecidableEq, Repr

/-- The `details` field of the error object built by `handleError`. -/
inductive ErrorDetails where
  | fromResponseData (d : ErrorResponseData)
  | fromRequest
  | fromError (e : AxiosError)
deriving DecidableEq, Repr

/-- The `{code, message, details}` object thrown by the API client. -/
structure ApiError where
  code : String
  message : String
  details : ErrorDetails
deriving DecidableEq, Repr

/-- JS `a || b` on a nullable string and a string default. -/
def jsOrStr (a : Option String) (b : String) : String :=
  match a with
  | some s => if s = "" then b else s
  | none => b

/-- `handleError` from the API client: server responses map to
`HTTP_<status>` with `data.message || data.error || 'An error occurred'`;
a sent request without response maps to `NETWORK_ERROR`; anything else to
`UNKNOWN_ERROR` with `error.message || 'An unknown error occurred'`. -/
def handleError (e : AxiosError) : ApiError :=
  match e.response with
  | some r =>
      { code := "HTTP_" ++ toString r.status,
        message := jsOrStr r.data.message (jsOrStr r.data.error "An error occurred"),
        details := ErrorDetails.fromResponseData r.data }
  | none =>
      if e.requestSent then
        { code := "NETWORK_ERROR",
          message := "Network error. Please check your connection.",
          details := ErrorDetails.fromRequest }
      else
        { code := "UNKNOWN_ERROR",
          message := jsOrStr e.message "An unknown error occurred",
          details := ErrorDetails.fromError e }

/-- The outcome of the single underlying axios call of one generic HTTP
method (`get`, `getPaginated`, `post`, `put`, `patch`, `delete`). -/
inductive HttpOutcome (ρ : Type) where
  | ok (resp : ρ)
  | err (e : AxiosError)

/-- One generic HTTP method of `ApiService`: it awaits exactly one axios
call and either returns its body or throws `handleError` of the failure.
The first component counts the HTTP requests issued by the call. -/
def apiCall {ρ : Type} (outcome : HttpOutcome ρ) : Nat × Except ApiError ρ :=
  match outcome with
  | HttpOutcome.ok resp => (1, Except.ok resp)
  | HttpOutcome.err e => (1, Except.error (handleError e))

/-! ### localStorage and the auth service -/

/-- The two localStorage keys the client uses (`auth_token`, `user_data`). -/
structure Storage where
  authToken : Option String
  userData : Option String
deriving DecidableEq, Repr

/-- `apiService.removeAuthToken`: removes both keys. -/
def removeAuthToken (_st : Storage) : Storage :=
  { authToken := none, userData := none }

/-- A JSON value as produced by `JSON.parse`. -/
inductive JsValue where
  | jsNull
  | jsBool (b : Bool)
  | jsNum (n : Int)
  | jsStr (s : String)
  | jsArr (elems : List JsValue)
  | jsObj (fields : List (String × JsValue))

/-- JS truthiness of a JSON value. -/
def jsTruthyVal : JsValue → Bool
  | JsValue.jsNull => false
  | JsValue.jsBool b => b
  | JsValue.jsNum n => n ≠ 0
  | JsValue.jsStr s => s ≠ ""
  | JsValue.jsArr _ => true
  | JsValue.jsObj _ => true

/-- `typeof v === 'object'` for a parsed JSON value (objects, arrays and
`null`). -/
def jsTypeofObject : JsValue → Bool
  | JsValue.jsNull => true
  | JsValue.jsArr _ => true
  | JsValue.jsObj _ => true
  | _ => false

/-- Property access `v.k` on a parsed JSON value (`none` = `undefined`). -/
def jsField (v : JsValue) (k : String) : Option JsValue :=
  match v with
  | JsValue.jsObj fields => fields.lookup k
  | _ => none

/-- Truthiness of property `k` of `v` (`undefined` is falsy). -/
def jsTruthyField (v : JsValue) (k : String) : Bool :=
  match jsField v k with
  | some w => jsTruthyVal w
  | none => false

/-- The user-record validation inside `getStoredUser`:
`parsedUser && typeof parsedUser === 'object' &&
 parsedUser.id && parsedUser.username && parsedUser.email`. -/
def validStoredUser (v : JsValue) : Bool :=
  jsTruthyVal v && jsTypeofObject v &&
    jsTruthyField v "id" && jsTruthyField v "username" && jsTruthyField v "email"

/-- `AuthService.getStoredUser`, over the content of the `user_data`
localStorage key and an abstract `JSON.parse` (`Except.error` = the parse
throws).  Returns the user value (or `none` for the `null` result) and
whether the `user_data` key was removed.  The function is total: every
exception of the source is caught. -/
def getStoredUser (stored : Option String) (parse : String → Except Unit JsValue) :
    Option JsValue × Bool :=
  match stored with
  | none => (none, false)
  | some s =>
    if s = "" then (none, false)
    else
      match parse s with
      | Except.error _ => (none, true)
      | Except.ok v => if validStoredUser v then (some v, false) else (none, true)

/-- `AuthService.logout`: `try { await post('/auth/logout') } catch { log }
finally { apiService.removeAuthToken() }`.  `postOutcome` is the outcome of
the POST; the function returns the storage after the call together with the
promise outcome of `logout` itself (always a resolution). -/
def authServiceLogout (postOutcome : Except ApiError Unit) (st : Storage) :
    Storage × Except Unit Unit :=
  match postOutcome with
  | Except.ok _ => (removeAuthToken st, Except.ok ())
  | Except.error _ => (removeAuthToken st, Except.ok ())

/-! ### The authentication context (`AuthProvider`) -/

/-- The `User` record as held in the auth state. -/
structure UserT where
  id : Int
  username : String
  firstName : String
  lastName : String
  email : String
  role : String
deriving DecidableEq, Repr

/-- `ApiResponse<T>`: `data` is nullable as observed by the truthiness
checks `response.success && response.data` in the context code. -/
structure ApiResponse (α : Type) where
  success : Bool
  data : Option α
deriving DecidableEq, Repr

/-- The fields of `LoginResponse` the login transition reads; per the
interface declaration `token` is a string. -/
structure LoginData where
  token : String
  userId : Int
  username : String
  firstName : String
  lastName : String
  email : String
  role : String
deriving DecidableEq, Repr

/-- `AuthState` of the authentication context. -/
structure AuthS where
  user : Option UserT
  token : Option String
  isAuthenticated : Bool
  isLoading : Bool
deriving DecidableEq, Repr

/-- The initial `useState` value of `AuthProvider`. -/
def initialAuthState : AuthS :=
  { user := none, token := none, isAuthenticated := false, isLoading := true }

/-- The sequence of states exposed by `initializeAuth`, given the stored
token, the stored user and the outcome of the `getCurrentUser` verification
call.  The token/user check is the JS truthiness test `token && user`. -/
def initAuthStates (storedToken : Option String) (storedUser : Option UserT)
    (verify : Except Unit (ApiResponse UserT)) (prev : AuthS) : List AuthS :=
  match storedToken, storedUser with
  | some t, some u =>
    if t = "" then [{ prev with isLoading := false }]
    else
      let temp : AuthS :=
        { user := some u, token := some t, isAuthenticated := true, isLoading := true }
      match verify with
      | Except.ok resp =>
        if resp.success then
          match resp.data with
          | some fresh =>
              [temp, { user := some fresh, token := some t,
                       isAuthenticated := true, isLoading := false }]
          | none =>
              [temp, { user := none, token := none,
                       isAuthenticated := false, isLoading := false }]
        else
          [temp, { user := none, token := none,
                   isAuthenticated := false, isLoading := false }]
      | Except.error _ =>
          [temp, { user := some u, token := some t,
                   isAuthenticated := true, isLoading := false }]
  | _, _ => [{ prev with isLoading := false }]

/-- The sequence of states exposed by `login`, given the outcome of
`authService.login`. -/
def loginStates (outcome : Except ApiError (ApiResponse LoginData)) (prev : AuthS) :
    List AuthS :=
  let loading := { prev with isLoading := true }
  match outcome with
  | Except.ok resp =>
    if resp.success then
      match resp.data with
      | some d =>
          [loading,
           { user := some { id := d.userId, username := d.username,
                            firstName := d.firstName, lastName := d.lastName,
                            email := d.email, role := d.role },
             token := some d.token, isAuthenticated := true, isLoading := false }]
      | none => [loading, { loading with isLoading := false }]
    else [loading, { loading with isLoading := false }]
  | Except.error _ => [loading, { loading with isLoading := false }]

/-- The sequence of states exposed by the context's `logout`: the cleared
state, in both the resolved and the rejected branch of
`authService.logout`. -/
def logoutStates (outcome : Except Unit Unit) (_prev : AuthS) : List AuthS :=
  match outcome with
  | Except.ok _ =>
      [{ user := none, token := none, isAuthenticated := false, isLoading := false }]
  | Except.error _ =>
      [{ user := none, token := none, isAuthenticated := false, isLoading := false }]

/-- The sequence of states exposed by `refreshUser`. -/
def refreshUserStates (outcome : Except Unit (ApiResponse UserT)) (prev : AuthS) :
    List AuthS :=
  match outcome with
  | Except.ok resp =>
    if resp.success then
      match resp.data with
      | some u => [{ prev with user := some u }]
      | none => []
    else []
  | Except.error _ => []

/-- The context's `logout` composed with the service call: state exposed and
storage after the run. -/
def contextLogout (postOutcome : Except ApiError Unit) (st : Storage) (_prev : AuthS) :
    Storage × AuthS :=
  let r := authServiceLogout postOutcome st
  match r.2 with
  | Except.ok _ =>
      (r.1, { user := none, token := none, isAuthenticated := false, isLoading := false })
  | Except.error _ =>
      (r.1, { user := none, token := none, isAuthenticated := false, isLoading := false })

/-- The auth-state consistency invariant: authenticated states carry a user
and a token. -/
def authInv (s : AuthS) : Prop :=
  s.isAuthenticated = true → s.user ≠ none ∧ s.token ≠ none

instance (s : AuthS) : Decidable (authInv s) := by
  unfold authInv; infer_instance

/-! ### Specification-side predicates for the search-page claims -/

/-- The selection predicate the specification states for direct flights:
price bound (when `maxPrice > 0`), positive availability in the selected
class (when one is selected), and the departure time-of-day window (when
both bounds are set). -/
def keepsDirect (filters : Filters) (f : Flight) : Prop :=
  (filters.maxPrice > 0 → priceInClass filters.seatClass f ≤ filters.maxPrice) ∧
  (∀ sc, filters.seatClass = some sc → 0 < availableSeatsInClass sc f) ∧
  (∀ s e, filters.timeStart = some s → filters.timeEnd = some e →
    s ≤ f.departureTimeOfDay ∧ f.departureTimeOfDay ≤ e)

/-- The selection predicate the specification states for transit options:
total-price bound (when `maxPrice > 0`) and the stop bound
`flights.length - 1 ≤ maxStops`. -/
def keepsTransit (filters : Filters) (o : TransitFlightOption) : Prop :=
  (filters.maxPrice > 0 → o.totalPrice ≤ filters.maxPrice) ∧
  (o.flights.length : Int) - 1 ≤ filters.maxStops

/-- The sort key the specification states for each sort mode. -/
def sortKeyOf (filters : Filters) (f : Flight) : Int :=
  match filters.sortBy with
  | SortBy.price => priceInClass filters.seatClass f
  | SortBy.departure => f.departureEpochMs
  | SortBy.duration => f.arrivalEpochMs - f.departureEpochMs

/-- Each comparator of `sortFunctions` is the difference of the
corresponding sort keys. -/
theorem sortCmp_eq_key_sub (filters : Filters) (a b : Flight) :
    sortCmp filters a b = sortKeyOf filters a - sortKeyOf filters b := by
  rcases h : filters.sortBy <;> simp [sortCmp, sortKeyOf, h]

/-! ### Claim theorems -/

/-- C1: for every seat class, airplane capacity configuration and booked-seat
list, `loadAvailableSeats` generates the full seat list as the strings
`P1 … Pn` in ascending numeric order — `P` being `F` for first, `B` for
business and `E` for economy, `n` the airplane's capacity in that class —
and the available seats are exactly the generated seats not contained in the
booked list, in the same order (a sublist of the generated list). -/
theorem seatMapDerivationC1 (sc : SeatClass) (a : Airplane) (booked : List String) :
    (loadAvailableSeats a sc booked).1.length = capacityInClass sc a ∧
    (∀ i (h : i < (loadAvailableSeats a sc booked).1.length),
      (loadAvailableSeats a sc booked).1.get ⟨i, h⟩ =
        (match sc with
         | SeatClass.FIRST => "F"
         | SeatClass.BUSINESS => "B"
         | SeatClass.ECONOMY => "E") ++ toString (i + 1)) ∧
    (loadAvailableSeats a sc booked).2.Sublist (loadAvailableSeats a sc booked).1 ∧
    (∀ s, s ∈ (loadAvailableSeats a sc booked).2 ↔
      s ∈ (loadAvailableSeats a sc booked).1 ∧ s ∉ booked) := by
  refine ⟨?_, ?_, ?_, ?_⟩
  · simp [loadAvailableSeats]
  · intro i h
    simp only [loadAvailableSeats, List.get_eq_getElem, List.getElem_map,
      List.getElem_range]
    cases sc <;> simp [seatLetter]
  · exact List.filter_sublist _
  · intro s
    simp [loadAvailableSeats, List.mem_filter]

/-- Witness for C1 at a concrete airplane, class and booked list. -/
theorem seatMapDerivationC1_witness :
    (loadAvailableSeats ⟨2, 2, 3⟩ SeatClass.ECONOMY ["E2"]).1.get ⟨1, by decide⟩ =
      "E" ++ toString (1 + 1) ∧
    ("E2" ∈ (loadAvailableSeats ⟨2, 2, 3⟩ SeatClass.ECONOMY ["E2"]).2 ↔
      "E2" ∈ (loadAvailableSeats ⟨2, 2, 3⟩ SeatClass.ECONOMY ["E2"]).1 ∧
        "E2" ∉ ["E2"]) :=
  ⟨(seatMapDerivationC1 SeatClass.ECONOMY ⟨2, 2, 3⟩ ["E2"]).2.1 1 (by decide),
   (seatMapDerivationC1 SeatClass.ECONOMY ⟨2, 2, 3⟩ ["E2"]).2.2.2 "E2"⟩

/-- C2: client-side result filtering is a pure selection — for every filter
configuration and non-null search result, `getFilteredResults` returns
lists whose members are drawn from the input, and an element is kept
exactly when it satisfies the active predicates stated by the
specification. -/
theorem filteredResultsSelectionC2 (filters : Filters) (res : FlightSearchResult) :
    ∃ out, getFilteredResults filters (some res) = some out ∧
      (∀ f, f ∈ out.directFlights ↔ f ∈ res.directFlights ∧ keepsDirect filters f) ∧
      (∀ o, o ∈ out.transitFlights ↔ o ∈ res.transitFlights ∧ keepsTransit filters o) := by
  refine ⟨_, rfl, ?_, ?_⟩
  · intro f
    by_cases hp : filters.maxPrice > 0 <;>
      rcases hsc : filters.seatClass with _ | sc <;>
      rcases hts : filters.timeStart with _ | s <;>
      rcases hte : filters.timeEnd with _ | e <;>
      simp [getFilteredResults, keepsDirect, hp, hsc, hts, hte, List.mem_filter,
        and_assoc] <;>
      tauto
  · intro o
    by_cases hp : filters.maxPrice > 0 <;>
      simp [getFilteredResults, keepsTransit, hp, List.mem_filter, and_assoc]
    tauto

/-- C3: the direct-flight list returned by `getFilteredResults` is sorted in
non-decreasing order of the chosen sort key (class price for `price`,
departure time for `departure`, arrival minus departure for `duration`). -/
theorem directFlightsSortedC3 (filters : Filters) (res : FlightSearchResult) :
    ∃ out, getFilteredResults filters (some res) = some out ∧
      out.directFlights.Pairwise
        (fun a b => sortKeyOf filters a ≤ sortKeyOf filters b) := by
  refine ⟨_, rfl, ?_⟩
  have h := @List.sorted_mergeSort Flight
    (fun a b => decide (sortCmp filters a b ≤ 0))
    (fun x y z hxy hyz => by
      simp only [decide_eq_true_eq, sortCmp_eq_key_sub] at *
      omega)
    (fun x y => by
      simp only [Bool.or_eq_true, decide_eq_true_eq, sortCmp_eq_key_sub]
      omega)
  refine List.Pairwise.imp ?_ (h _)
  intro x y hxy
  simp only [decide_eq_true_eq, sortCmp_eq_key_sub] at hxy
  omega

/-- C4, counterexample: the client does enforce lifecycle rules.  The zod
`airplaneSchema` rejects an airplane form with zero economy capacity, the
booking button is disabled when fewer seats are available than passengers,
and the booking dialog's flight list drops a past, cancelled flight — so
the claim that the client enforces no capacity bound, seat-availability
limit or future-scheduled restriction fails on these concrete inputs. -/
theorem serverSideLifecycleC4_counterexample :
    airplaneSchemaCheck ⟨"A320", "4R-ABC", 0, 0, 0⟩ = false ∧
    bookButtonDisabled 0 1 false = true ∧
    bookableFlights 1000
      [⟨"FL1", ⟨1, 1, 1⟩, 500, 600, 0, FlightStatus.CANCELLED,
        0, 0, 0, 0, 0, 0⟩] = [] := by
  refine ⟨rfl, rfl, ?_⟩
  simp [bookableFlights]

/-- C4, amended: the client itself enforces three lifecycle rules before or
instead of submitting to the backend — the airplane creation form is
accepted exactly when model and registration are non-empty, first and
business capacities are at least 0 and the economy capacity is at least 1;
the booking button is enabled exactly when the selected class has at least
as many available seats as passengers and no booking is in flight; and the
booking dialog offers exactly the flights that are in the future and
`SCHEDULED`.  Remaining rules are enforced server-side. -/
theorem serverSideLifecycleC4 :
    (∀ d : AirplaneFormData, airplaneSchemaCheck d = true ↔
      (1 ≤ d.model.length ∧ 1 ≤ d.registrationNumber.length ∧
       0 ≤ d.firstClassCapacity ∧ 0 ≤ d.businessClassCapacity ∧
       1 ≤ d.economyClassCapacity)) ∧
    (∀ (seats pax : Int) (isBooking : Bool),
      bookButtonDisabled seats pax isBooking = false ↔
        (pax ≤ seats ∧ isBooking = false)) ∧
    (∀ (now : Int) (flights : List Flight) (f : Flight),
      f ∈ bookableFlights now flights ↔
        f ∈ flights ∧ now < f.departureEpochMs ∧
          f.status = FlightStatus.SCHEDULED) := by
  refine ⟨?_, ?_, ?_⟩
  · intro d
    simp [airplaneSchemaCheck, and_assoc]
  · intro seats pax isBooking
    simp [bookButtonDisabled, isAvailable, ge_iff_le]
  · intro now flights f
    simp [bookableFlights, List.mem_filter, and_assoc]

/-- C5, counterexample: the 401 interceptor does not unconditionally remove
the stored token, and it does more than mark, remove and reject — on the
login page the token is kept, and away from the auth pages a redirect to
`/login` is additionally scheduled. -/
theorem noRetryPolicyC5_counterexample :
    (responseErrorInterceptor ⟨some 401, false⟩ "/login").tokenRemoved = false ∧
    (responseErrorInterceptor ⟨some 401, false⟩ "/search").redirectScheduled = true := by
  constructor <;> decide

/-- C5, amended: the API client has no retry policy — the response error
interceptor never reissues a request and always rejects; it marks `_retry`
exactly on an unmarked 401 and removes the stored token (scheduling a
redirect) exactly on an unmarked 401 received outside `/login` and
`/register`; and each generic HTTP method issues exactly one HTTP request,
propagating every failure as a rejection carrying `handleError` of the
cause. -/
theorem noRetryPolicyC5 :
    (∀ (err : ResponseErrorInput) (path : String),
      (responseErrorInterceptor err path).requestReissued = false ∧
      (responseErrorInterceptor err path).rejected = true ∧
      ((responseErrorInterceptor err path).retryMarked = true ↔
        (err.status = some 401 ∧ err.retryFlag = false)) ∧
      ((responseErrorInterceptor err path).tokenRemoved = true ↔
        (err.status = some 401 ∧ err.retryFlag = false ∧
         path ≠ "/login" ∧ path ≠ "/register")) ∧
      ((responseErrorInterceptor err path).redirectScheduled =
        (responseErrorInterceptor err path).tokenRemoved)) ∧
    (∀ (ρ : Type) (outcome : HttpOutcome ρ), (apiCall outcome).1 = 1) ∧
    (∀ (ρ : Type) (e : AxiosError),
      (apiCall (@HttpOutcome.err ρ e)).2 = Except.error (handleError e)) := by
  refine ⟨?_, ?_, ?_⟩
  · intro err path
    unfold responseErrorInterceptor
    split_ifs with h1 h2 <;> simp_all
  · intro ρ outcome
    cases outcome <;> rfl
  · intro ρ e
    rfl

/-- C6, counterexample: when the response body's `message` field is present
but empty, the thrown error's message is not that field — the JS falsiness
of `''` makes `handleError` fall through to the `error` field. -/
theorem errorMappingC6_counterexample :
    (handleError ⟨some ⟨500, ⟨some "", some "E"⟩⟩, true, none⟩).message = "E" ∧
    ("E" : String) ≠ "" := by
  constructor <;> decide

/-- C6, amended: every error thrown by an apiService HTTP method is a
`{code, message, details}` object; on a server response with status `s` the
code is `HTTP_s` and the message is the body's `message` field when that is
a non-empty string, else the body's `error` field when non-empty, else
`An error occurred`; on a sent request without response the code is
`NETWORK_ERROR` with the fixed connection message; otherwise the code is
`UNKNOWN_ERROR` with the underlying error's non-empty message or
`An unknown error occurred`. -/
theorem errorMappingC6 (e : AxiosError) :
    (∀ r, e.response = some r →
      (handleError e).code = "HTTP_" ++ toString r.status ∧
      (∀ m, r.data.message = some m → m ≠ "" → (handleError e).message = m) ∧
      (jsTruthyStr r.data.message = false →
        ∀ m, r.data.error = some m → m ≠ "" → (handleError e).message = m) ∧
      (jsTruthyStr r.data.message = false → jsTruthyStr r.data.error = false →
        (handleError e).message = "An error occurred") ∧
      (handleError e).details = ErrorDetails.fromResponseData r.data) ∧
    (e.response = none → e.requestSent = true →
      handleError e =
        ⟨"NETWORK_ERROR", "Network error. Please check your connection.",
         ErrorDetails.fromRequest⟩) ∧
    (e.response = none → e.requestSent = false →
      (handleError e).code = "UNKNOWN_ERROR" ∧
      (∀ m, e.message = some m → m ≠ "" → (handleError e).message = m) ∧
      (jsTruthyStr e.message = false →
        (handleError e).message = "An unknown error occurred") ∧
      (handleError e).details = ErrorDetails.fromError e) := by
  refine ⟨?_, ?_, ?_⟩
  · rintro r hr
    refine ⟨?_, ?_, ?_, ?_, ?_⟩ <;>
      simp only [handleError, hr] <;>
      rcases r.data.message with _ | m <;>
      rcases r.data.error with _ | m2 <;>
      simp_all [jsOrStr, jsTruthyStr]
  · intro h1 h2
    simp [handleError, h1, h2]
  · intro h1 h2
    refine ⟨?_, ?_, ?_, ?_⟩ <;>
      simp only [handleError, h1, h2] <;>
      rcases e.message with _ | m <;>
      simp_all [jsOrStr, jsTruthyStr]

/-- Witness for C6 at a concrete 404 response whose body has only an
`error` field. -/
theorem errorMappingC6_witness :
    (handleError ⟨some ⟨404, ⟨none, some "Not found"⟩⟩, true, none⟩).message =
      "Not found" :=
  ((errorMappingC6 ⟨some ⟨404, ⟨none, some "Not found"⟩⟩, true, none⟩).1
    ⟨404, ⟨none, some "Not found"⟩⟩ rfl).2.2.1 (by decide) "Not found" rfl (by decide)

/-- C7: logout teardown is unconditional — whatever the outcome of the
`POST /auth/logout` call and whatever the previous storage and auth state,
after `logout()` resolves both localStorage keys are removed and the
exposed auth state is the cleared one. -/
theorem logoutTeardownC7 :
    ∀ (postOutcome : Except ApiError Unit) (st : Storage) (prev : AuthS),
      contextLogout postOutcome st prev =
        (⟨none, none⟩, ⟨none, none, false, false⟩) := by
  intro postOutcome st prev
  cases postOutcome <;> rfl

/-- C8, counterexample: when the stored token is the empty string the
request interceptor adds no Authorization header at all, while the claim
as stated would require the header value `Bearer `. -/
theorem bearerTokenC8_counterexample :
    ¬ ((requestInterceptor (some "") ⟨none⟩).authorization =
        some ("Bearer " ++ "")) := by
  decide

/-- C8, amended: for every request, if a non-empty token `t` is stored under
the `auth_token` localStorage key, the outgoing request carries
`Authorization: Bearer t`; when no token (or the empty, falsy token) is
stored the interceptor leaves the request configuration unchanged. -/
theorem bearerTokenC8 :
    (∀ (t : String) (config : RequestConfig), t ≠ "" →
      (requestInterceptor (some t) config).authorization =
        some ("Bearer " ++ t)) ∧
    (∀ config : RequestConfig, requestInterceptor none config = config) ∧
    (∀ config : RequestConfig, requestInterceptor (some "") config = config) := by
  refine ⟨?_, ?_, ?_⟩
  · intro t config ht
    simp [requestInterceptor, ht]
  · intro config
    rfl
  · intro config
    rfl

/-- Witness for C8 at a concrete non-empty token. -/
theorem bearerTokenC8_witness :
    (requestInterceptor (some "tok123") ⟨none⟩).authorization =
      some ("Bearer " ++ "tok123") :=
  bearerTokenC8.1 "tok123" ⟨none⟩ (by decide)

/-- Updating only `isLoading` preserves the auth-state invariant. -/
theorem authInv_setLoading {prev : AuthS} (h : authInv prev) (l : Bool) :
    authInv { prev with isLoading := l } :=
  fun hb => h hb

/-- C9: auth-state consistency — the invariant "authenticated implies a
user and a token are present" holds in the initial state and in every state
exposed by `initializeAuth`, `login`, `logout` and `refreshUser`, for every
outcome of the underlying service calls. -/
theorem authInvariantC9 :
    authInv initialAuthState ∧
    (∀ storedToken storedUser verify prev, authInv prev →
      ∀ s ∈ initAuthStates storedToken storedUser verify prev, authInv s) ∧
    (∀ outcome prev, authInv prev →
      ∀ s ∈ loginStates outcome prev, authInv s) ∧
    (∀ outcome prev, ∀ s ∈ logoutStates outcome prev, authInv s) ∧
    (∀ outcome prev, authInv prev →
      ∀ s ∈ refreshUserStates outcome prev, authInv s) := by
  refine ⟨?_, ?_, ?_, ?_, ?_⟩
  · intro h
    simp [initialAuthState] at h
  · intro storedToken storedUser verify prev hprev s hs
    unfold initAuthStates at hs
    rcases storedToken with _ | t <;> rcases storedUser with _ | u
    · simp at hs
      exact hs ▸ authInv_setLoading hprev false
    · simp at hs
      exact hs ▸ authInv_setLoading hprev false
    · simp at hs
      exact hs ▸ authInv_setLoading hprev false
    · by_cases ht : t = ""
      · simp [ht] at hs
        exact hs ▸ authInv_setLoading hprev false
      · simp only [ht, if_neg, if_false] at hs
        rcases verify with herr | resp
        · simp [ht] at hs
          rcases hs with rfl | rfl <;> exact fun _ => by simp
        · rcases hsu : resp.success with _ | _
          · simp [ht, hsu] at hs
            rcases hs with rfl | rfl
            · exact fun _ => by simp
            · exact fun h => by simp at h
          · rcases hd : resp.data with _ | fresh <;> simp [ht, hsu, hd] at hs <;>
              rcases hs with rfl | rfl
            · exact fun _ => by simp
            · exact fun h => by simp at h
            · exact fun _ => by simp
            · exact fun _ => by simp
  · intro outcome prev hprev s hs
    unfold loginStates at hs
    rcases outcome with herr | resp
    · simp at hs
      rcases hs with rfl | rfl <;> exact fun hb => hprev hb
    · rcases hsu : resp.success with _ | _
      · simp [hsu] at hs
        rcases hs with rfl | rfl <;> exact fun hb => hprev hb
      · rcases hd : resp.data with _ | d <;> simp [hsu, hd] at hs <;>
          rcases hs with rfl | rfl
        · exact fun hb => hprev hb
        · exact fun hb => hprev hb
        · exact fun hb => hprev hb
        · exact fun _ => by simp
  · intro outcome prev s hs
    unfold logoutStates at hs
    rcases outcome with h | h <;> simp at hs <;> subst hs <;>
      intro hb <;> simp at hb
  · intro outcome prev hprev s hs
    unfold refreshUserStates at hs
    rcases outcome with herr | resp
    · simp at hs
    · rcases hsu : resp.success with _ | _
      · simp [hsu] at hs
      · rcases hd : resp.data with _ | u <;> simp [hsu, hd] at hs
        subst hs
        intro hb
        exact ⟨by simp, (hprev hb).2⟩

/-- Witness for C9: the temporary state exposed while `initializeAuth`
verifies a stored session satisfies the invariant. -/
theorem authInvariantC9_witness :
    authInv ⟨some ⟨1, "u", "f", "l", "e", "CUSTOMER"⟩, some "tok", true, true⟩ :=
  authInvariantC9.2.1 (some "tok") (some ⟨1, "u", "f", "l", "e", "CUSTOMER"⟩)
    (Except.error ()) initialAuthState (by decide)
    ⟨some ⟨1, "u", "f", "l", "e", "CUSTOMER"⟩, some "tok", true, true⟩ (by decide)

/-- C10, counterexample: a present but empty `user_data` value is not valid
JSON (`JSON.parse('')` throws), yet `getStoredUser` returns null without
removing the key — the falsy-string guard returns before the parse — so the
claim's clause "whenever a stored value is present but invalid or
unparsable it removes the key" fails at the stored value `''`. -/
theorem getStoredUserC10_counterexample :
    (getStoredUser (some "") (fun _ => Except.error ())).2 = false :=
  rfl

/-- C10, amended: `getStoredUser` is total (every source exception is
caught) and self-cleaning for non-empty values — it returns the parsed
value exactly when the stored value is present, non-empty, parses to a
JSON object whose `id`, `username` and `email` properties are truthy, and
returns null in every other case; it removes the `user_data` key exactly
when the stored value is present and non-empty but fails to parse or fails
the validation. -/
theorem getStoredUserC10 (stored : Option String)
    (parse : String → Except Unit JsValue) :
    (∀ v, (getStoredUser stored parse).1 = some v ↔
      (∃ s, stored = some s ∧ s ≠ "" ∧ parse s = Except.ok v) ∧
        (∃ fields, v = JsValue.jsObj fields) ∧
        jsTruthyField v "id" = true ∧ jsTruthyField v "username" = true ∧
        jsTruthyField v "email" = true) ∧
    ((getStoredUser stored parse).2 = true ↔
      ∃ s, stored = some s ∧ s ≠ "" ∧
        (parse s = Except.error () ∨
         ∃ v, parse s = Except.ok v ∧ validStoredUser v = false)) := by
  have hvalid : ∀ v : JsValue, validStoredUser v = true ↔
      ((∃ fields, v = JsValue.jsObj fields) ∧
        jsTruthyField v "id" = true ∧ jsTruthyField v "username" = true ∧
        jsTruthyField v "email" = true) := by
    intro v
    cases v <;>
      simp [validStoredUser, jsTruthyVal, jsTypeofObject, jsTruthyField, jsField,
        and_assoc]
  rcases stored with _ | s
  · constructor
    · intro v
      simp [getStoredUser]
    · simp [getStoredUser]
  · by_cases hs : s = ""
    · subst hs
      constructor
      · intro v
        simp [getStoredUser]
      · simp [getStoredUser]
    · rcases hp : parse s with herr | w
      · have hev : getStoredUser (some s) parse = (none, true) := by
          simp [getStoredUser, hs, hp]
        rw [hev]
        constructor
        · intro v
          constructor
          · intro h
            simp at h
          · rintro ⟨⟨s2, hs2, hne, hp2⟩, hrest⟩
            cases hs2
            rw [hp] at hp2
            cases hp2
        · constructor
          · intro _
            exact ⟨s, rfl, hs, Or.inl (by rw [hp])⟩
          · intro _
            rfl
      · by_cases hw : validStoredUser w
        · have hev : getStoredUser (some s) parse = (some w, false) := by
            simp [getStoredUser, hs, hp, hw]
          rw [hev]
          constructor
          · intro v
            constructor
            · intro h
              have hwv : w = v := by simpa using h
              subst hwv
              exact ⟨⟨s, rfl, hs, hp⟩, (hvalid w).mp hw⟩
            · rintro ⟨⟨s2, hs2, hne, hp2⟩, hrest⟩
              cases hs2
              rw [hp] at hp2
              cases hp2
              rfl
          · constructor
            · intro h
              simp at h
            · rintro ⟨s2, hs2, hne, hor⟩
              cases hs2
              rcases hor with hbad | ⟨v2, hv2, hbad⟩
              · rw [hp] at hbad
                cases hbad
              · rw [hp] at hv2
                cases hv2
                rw [hw] at hbad
                cases hbad
        · have hev : getStoredUser (some s) parse = (none, true) := by
            simp [getStoredUser, hs, hp, hw]
          rw [hev]
          constructor
          · intro v
            constructor
            · intro h
              simp at h
            · rintro ⟨⟨s2, hs2, hne, hp2⟩, hrest⟩
              cases hs2
              rw [hp] at hp2
              cases hp2
              exact absurd ((hvalid _).mpr hrest) hw
          · constructor
            · intro _
              exact ⟨s, rfl, hs, Or.inr ⟨w, by rw [hp], by simp [hw]⟩⟩
            · intro _
              rfl

end Travel360
